import Mathlib

/-!
Shallow embedding of the hex-engine entity/component runtime
(`src/packages/engine/src/Component.ts`, `src/packages/2d/src/Hooks/useEntitiesAtPoint.ts`,
`src/packages/2d/src/Components/Keyboard.ts`, `src/packages/2d/src/Components/Tiled.ts`),
with theorems settling the specification claims about it.

JavaScript `Set`s are embedded as duplicate-free lists (`setAdd` inserts only when
absent, `setDelete` erases), machine numbers as `Int`, nullable references as
`Option`, thrown exceptions as `Except String`, and lifecycle hook invocations as
explicitly emitted event lists.  Collaborators of the four source files that are
part of this repository but not under `src/` (Entity, Scene, the Canvas draw-order
helpers, the Grid model) are modelled from the spec; each such definition carries a
doc comment saying so.
-/

namespace HexEngine

/-! ### JavaScript Set embedding -/

/-- JS `Set.add`: insert the element only when it is absent (membership semantics). -/
def setAdd (l : List Nat) (s : Nat) : List Nat :=
  if s ∈ l then l else l ++ [s]

/-- JS `Set.delete`: remove the element. -/
def setDelete (l : List Nat) (s : Nat) : List Nat :=
  l.erase s

theorem mem_setAdd_self (l : List Nat) (s : Nat) : s ∈ setAdd l s := by
  unfold setAdd
  split
  · assumption
  · simp

theorem mem_setAdd_of_mem {l : List Nat} {a : Nat} (s : Nat) (h : a ∈ l) :
    a ∈ setAdd l s := by
  unfold setAdd
  split
  · exact h
  · simp [h]

theorem mem_setDelete_of_ne {l : List Nat} {a s : Nat} (h : a ∈ l) (hne : a ≠ s) :
    a ∈ setDelete l s := by
  unfold setDelete
  exact (List.mem_erase_of_ne hne).mpr h

/-! ### Canvas (`Canvas` class in src/packages/engine/src/Component.ts)

Scenes are identified by natural numbers.  The fields of `CanvasState` mirror the
fields `scenes`, `rootScene`, `activeScene` of the TS class; the `_element` and
`_runLoop` fields play no role in scene-set membership and are omitted. -/

structure CanvasState where
  scenes : List Nat
  rootScene : Nat
  activeScene : Nat
deriving Repr, DecidableEq

/-- The Canvas constructor: `this.scenes = new Set(); this.rootScene = new Scene();
this.scenes.add(this.rootScene); this.activeScene = this.rootScene;`. -/
def Canvas.init (root : Nat) : CanvasState :=
  { scenes := setAdd [] root, rootScene := root, activeScene := root }

/-- The Canvas operations a caller can perform after construction.  `addChild` /
`removeChild` with an `Entity` argument delegate to the active scene's child list
and leave every `CanvasState` field unchanged, so they are single constructors. -/
inductive CanvasOp where
  | present (s : Nat)
  | addChildScene (s : Nat)
  | removeChildScene (s : Nat)
  | addChildEntity
  | removeChildEntity
deriving Repr, DecidableEq

/-- One Canvas operation.  `present(scene)` is `this.scenes.add(scene);
this.activeScene = scene;`; the Scene branches of `addChild` / `removeChild` are
`this.scenes.add(child)` / `this.scenes.delete(child)`. -/
def Canvas.step (c : CanvasState) : CanvasOp → CanvasState
  | .present s => { c with scenes := setAdd c.scenes s, activeScene := s }
  | .addChildScene s => { c with scenes := setAdd c.scenes s }
  | .removeChildScene s => { c with scenes := setDelete c.scenes s }
  | .addChildEntity => c
  | .removeChildEntity => c

/-- Run a sequence of Canvas operations. -/
def Canvas.run (c : CanvasState) (ops : List CanvasOp) : CanvasState :=
  ops.foldl Canvas.step c

/-- An operation is safe for the active-scene invariant when it is not
`removeChild` of the scene that is active at that moment. -/
def Canvas.safeStep (c : CanvasState) : CanvasOp → Bool
  | .removeChildScene s => s != c.activeScene
  | _ => true

/-- Every operation in the sequence is safe at the state at which it runs. -/
def Canvas.safeOps : CanvasState → List CanvasOp → Bool
  | _, [] => true
  | c, op :: ops => Canvas.safeStep c op && Canvas.safeOps (Canvas.step c op) ops

/-- Whether an operation is exactly `removeChild` of scene `r`. -/
def CanvasOp.removesScene (r : Nat) : CanvasOp → Bool
  | .removeChildScene s => s == r
  | _ => false

theorem Canvas.step_rootScene (c : CanvasState) (op : CanvasOp) :
    (Canvas.step c op).rootScene = c.rootScene := by
  cases op <;> rfl

theorem Canvas.step_active_mem {c : CanvasState} {op : CanvasOp}
    (h : c.activeScene ∈ c.scenes) (hs : Canvas.safeStep c op = true) :
    (Canvas.step c op).activeScene ∈ (Canvas.step c op).scenes := by
  cases op with
  | present s => exact mem_setAdd_self _ _
  | addChildScene s => exact mem_setAdd_of_mem s h
  | removeChildScene s =>
      have hne : c.activeScene ≠ s := by
        simp only [Canvas.safeStep, bne_iff_ne, ne_eq] at hs
        exact fun hEq => hs hEq.symm
      exact mem_setDelete_of_ne h hne
  | addChildEntity => exact h
  | removeChildEntity => exact h

theorem Canvas.step_mem_of_not_removed {c : CanvasState} {op : CanvasOp} {r : Nat}
    (h : r ∈ c.scenes) (hop : CanvasOp.removesScene r op = false) :
    r ∈ (Canvas.step c op).scenes := by
  cases op with
  | present s => exact mem_setAdd_of_mem s h
  | addChildScene s => exact mem_setAdd_of_mem s h
  | removeChildScene s =>
      have hne : r ≠ s := by
        simp only [CanvasOp.removesScene, beq_eq_false_iff_ne, ne_eq] at hop
        exact fun hEq => hop hEq.symm
      exact mem_setDelete_of_ne h hne
  | addChildEntity => exact h
  | removeChildEntity => exact h

theorem Canvas.run_active_mem {c : CanvasState} {ops : List CanvasOp}
    (h : c.activeScene ∈ c.scenes) (hs : Canvas.safeOps c ops = true) :
    (Canvas.run c ops).activeScene ∈ (Canvas.run c ops).scenes := by
  induction ops generalizing c with
  | nil => exact h
  | cons op ops ih =>
      simp only [Canvas.safeOps, Bool.and_eq_true] at hs
      exact ih (Canvas.step_active_mem h hs.1) hs.2

theorem Canvas.run_mem_of_not_removed {c : CanvasState} {ops : List CanvasOp} {r : Nat}
    (h : r ∈ c.scenes)
    (hops : ops.all (fun op => !CanvasOp.removesScene r op) = true) :
    r ∈ (Canvas.run c ops).scenes := by
  induction ops generalizing c with
  | nil => exact h
  | cons op ops ih =>
      simp only [List.all_cons, Bool.and_eq_true] at hops
      have hop1 : CanvasOp.removesScene r op = false := by
        have := hops.1
        simpa using this
      exact ih (Canvas.step_mem_of_not_removed h hop1) hops.2

/-- C1 counterexample: the claim quantifies over sequences that include
`removeChild`, and `removeChild` of the scene that is currently active deletes it
from the scene set while leaving `activeScene` pointing at it.  Concretely:
construct a Canvas (root scene 0) and call `removeChild(rootScene)`; afterwards
the active scene is not a member of the scene set. -/
theorem c1_activeScene_can_leave_set :
    ¬ (Canvas.run (Canvas.init 0) [CanvasOp.removeChildScene 0]).activeScene ∈
      (Canvas.run (Canvas.init 0) [CanvasOp.removeChildScene 0]).scenes := by
  decide

/-- C1 (amended): for every sequence of operations (construction, `present`,
`addChild`, `removeChild`) in which `removeChild` is never applied to the scene
that is active at the moment of the call, the active scene is a member of the
Canvas's scene set after the run; and the root scene created at construction
remains a member as long as no `removeChild` in the sequence targets it. -/
theorem c1_scene_set_invariant (root : Nat) (ops : List CanvasOp)
    (hsafe : Canvas.safeOps (Canvas.init root) ops = true)
    (hroot : ops.all (fun op => !CanvasOp.removesScene root op) = true) :
    (Canvas.run (Canvas.init root) ops).activeScene ∈
        (Canvas.run (Canvas.init root) ops).scenes ∧
      root ∈ (Canvas.run (Canvas.init root) ops).scenes := by
  constructor
  · exact Canvas.run_active_mem (show root ∈ setAdd [] root from mem_setAdd_self [] root) hsafe
  · exact Canvas.run_mem_of_not_removed (show root ∈ setAdd [] root from mem_setAdd_self [] root)
      hroot

/-- C1 witness: a concrete run (present scene 1, add scene 2, remove the inactive
scene 2) satisfying the theorem's hypotheses. -/
theorem c1_scene_set_invariant_witness :
    (Canvas.run (Canvas.init 0)
        [CanvasOp.present 1, CanvasOp.addChildScene 2,
          CanvasOp.removeChildScene 2]).activeScene ∈
      (Canvas.run (Canvas.init 0)
        [CanvasOp.present 1, CanvasOp.addChildScene 2,
          CanvasOp.removeChildScene 2]).scenes ∧
    0 ∈ (Canvas.run (Canvas.init 0)
        [CanvasOp.present 1, CanvasOp.addChildScene 2,
          CanvasOp.removeChildScene 2]).scenes :=
  c1_scene_set_invariant 0
    [CanvasOp.present 1, CanvasOp.addChildScene 2, CanvasOp.removeChildScene 2]
    (by decide) (by decide)

/-! ### BaseComponent (`BaseComponent` class in src/packages/engine/src/Component.ts)

Lifecycle hook invocations (`onEnabled`, `onDisabled`, `onEntityReceived`) are
embedded as events emitted by each method, so that "the hook fires exactly once"
becomes a statement about the emitted event list. -/

inductive HookEvent where
  | onEnabled
  | onDisabled
  | onEntityReceived
deriving Repr, DecidableEq

/-- Modelled from the spec: `Entity.ts` is not under `src/`.  A component instance
attached to an entity, carrying a type tag (its constructor class) and an
identity. -/
structure CompInst where
  ctype : Nat
  cid : Nat
deriving Repr, DecidableEq

/-- Modelled from the spec: `Entity.ts` is not under `src/`.  An entity as seen by
`BaseComponent.getComponent`: an ordered sequence of attached components. -/
structure Entity where
  components : List CompInst
deriving Repr, DecidableEq

/-- Modelled from the spec: "`getComponent(type)`: linear scan of this entity's
attached components ... returning the first structurally-matching instance or
null". -/
def Entity.getComponent (e : Entity) (t : Nat) : Option CompInst :=
  e.components.find? (fun i => i.ctype == t)

/-- Modelled from the spec: the entity's typed lookup "returns null if unattached
or not found — never throws": a total function whose only outcome is `ok`. -/
def Entity.getComponentE (e : Entity) (t : Nat) : Except String (Option CompInst) :=
  Except.ok (e.getComponent t)

/-- The fields of the `BaseComponent` class: `entity` (nullable) and `isEnabled`. -/
structure BaseComponent where
  entity : Option Entity
  isEnabled : Bool
deriving Repr, DecidableEq

/-- The `BaseComponent` constructor: `this.isEnabled = config.isEnabled ?? true`
with a detached (`null`) entity reference. -/
def BaseComponent.create (isEnabledCfg : Option Bool) : BaseComponent :=
  { entity := none, isEnabled := isEnabledCfg.getD true }

/-- `enable()`: `this.isEnabled = true; this.onEnabled();` — the hook fires
unconditionally. -/
def BaseComponent.enable (c : BaseComponent) : BaseComponent × List HookEvent :=
  ({ c with isEnabled := true }, [HookEvent.onEnabled])

/-- `disable()`: `this.isEnabled = false; this.onDisabled();`. -/
def BaseComponent.disable (c : BaseComponent) : BaseComponent × List HookEvent :=
  ({ c with isEnabled := false }, [HookEvent.onDisabled])

/-- `_receiveEntity(entity)`: `this.entity = entity; this.onEntityReceived(entity);`. -/
def BaseComponent._receiveEntity (c : BaseComponent) (e : Option Entity) :
    BaseComponent × List HookEvent :=
  ({ c with entity := e }, [HookEvent.onEntityReceived])

/-- `update(delta)`: a default no-op that fires no lifecycle hook. -/
def BaseComponent.update (c : BaseComponent) (_delta : Int) :
    BaseComponent × List HookEvent :=
  (c, [])

/-- `draw(config)`: a default no-op that fires no lifecycle hook. -/
def BaseComponent.draw (c : BaseComponent) : BaseComponent × List HookEvent :=
  (c, [])

/-- `getComponent(componentClass)`: `if (this.entity == null) return null;
return this.entity.getComponent(componentClass);`. -/
def BaseComponent.getComponent (c : BaseComponent) (t : Nat) : Option CompInst :=
  match c.entity with
  | none => none
  | some e => e.getComponent t

/-- `getComponent` with the exception channel made explicit: the method body has
no throw site, and the entity lookup it delegates to never throws. -/
def BaseComponent.getComponentE (c : BaseComponent) (t : Nat) :
    Except String (Option CompInst) :=
  match c.entity with
  | none => Except.ok none
  | some e => e.getComponentE t

/-- The method calls a caller can perform on a component. -/
inductive CompOp where
  | enable
  | disable
  | receive (e : Option Entity)
  | update (delta : Int)
  | draw
deriving Repr, DecidableEq

/-- Dispatch one method call. -/
def BaseComponent.stepOp (c : BaseComponent) : CompOp → BaseComponent × List HookEvent
  | .enable => c.enable
  | .disable => c.disable
  | .receive e => c._receiveEntity e
  | .update d => c.update d
  | .draw => c.draw

/-- Run a sequence of method calls, concatenating the emitted hook events. -/
def BaseComponent.runOps : BaseComponent → List CompOp → BaseComponent × List HookEvent
  | c, [] => (c, [])
  | c, op :: ops =>
    let s := c.stepOp op
    let r := s.1.runOps ops
    (r.1, s.2 ++ r.2)

theorem BaseComponent.stepOp_onDisabled_count {c : BaseComponent} {op : CompOp}
    (h : op ≠ CompOp.disable) :
    ((c.stepOp op).2.count HookEvent.onDisabled) = 0 := by
  cases op with
  | enable => rfl
  | disable => exact absurd rfl h
  | receive e => rfl
  | update d => rfl
  | draw => rfl

/-- C5: a single `enable()` call sets `isEnabled` to true and fires the
`onEnabled` hook exactly once (unconditionally, for every starting state,
including an already-enabled one); a single `disable()` call sets `isEnabled` to
false and fires `onDisabled` exactly once; and along any sequence of method calls
that never includes `disable`, the `onDisabled` hook never fires. -/
theorem c5_lifecycle_hook_firing :
    (∀ c : BaseComponent,
        (c.enable).1.isEnabled = true ∧ (c.enable).2.count HookEvent.onEnabled = 1) ∧
    (∀ c : BaseComponent,
        (c.disable).1.isEnabled = false ∧ (c.disable).2.count HookEvent.onDisabled = 1) ∧
    (∀ (c : BaseComponent) (ops : List CompOp), CompOp.disable ∉ ops →
        (c.runOps ops).2.count HookEvent.onDisabled = 0) := by
  refine ⟨fun c => ⟨rfl, rfl⟩, fun c => ⟨rfl, rfl⟩, fun c ops h => ?_⟩
  induction ops generalizing c with
  | nil => rfl
  | cons op ops ih =>
      have hop : op ≠ CompOp.disable := fun hEq => h (hEq ▸ List.mem_cons_self op ops)
      have hrest : CompOp.disable ∉ ops := fun hm => h (List.mem_cons_of_mem op hm)
      simp only [BaseComponent.runOps, List.count_append,
        BaseComponent.stepOp_onDisabled_count hop, Nat.zero_add]
      exact ih _ hrest

/-- C5 witness: a concrete component run through enable, update, draw and a
detachment, never disabled. -/
theorem c5_lifecycle_hook_firing_witness :
    ((BaseComponent.create none).enable).1.isEnabled = true ∧
    ((BaseComponent.create none).enable).2.count HookEvent.onEnabled = 1 ∧
    ((BaseComponent.create none).disable).1.isEnabled = false ∧
    ((BaseComponent.create none).disable).2.count HookEvent.onDisabled = 1 ∧
    ((BaseComponent.create none).runOps
        [CompOp.enable, CompOp.update 16, CompOp.draw,
          CompOp.receive none]).2.count HookEvent.onDisabled = 0 :=
  ⟨(c5_lifecycle_hook_firing.1 (BaseComponent.create none)).1,
    (c5_lifecycle_hook_firing.1 (BaseComponent.create none)).2,
    (c5_lifecycle_hook_firing.2.1 (BaseComponent.create none)).1,
    (c5_lifecycle_hook_firing.2.1 (BaseComponent.create none)).2,
    c5_lifecycle_hook_firing.2.2 (BaseComponent.create none)
      [CompOp.enable, CompOp.update 16, CompOp.draw, CompOp.receive none]
      (by decide)⟩

/-- C6: `getComponent(type)` returns an absent result when the component is
unattached (its entity reference is null), delegates to the owning entity's typed
lookup when attached, and in no case raises an error (the exception-explicit form
of the call always returns `ok`). -/
theorem c6_getComponent_total (c : BaseComponent) (t : Nat) :
    (c.getComponentE t = Except.ok (c.getComponent t)) ∧
    (c.entity = none → c.getComponent t = none) ∧
    (∀ e : Entity, c.entity = some e → c.getComponent t = e.getComponent t) := by
  refine ⟨?_, ?_, ?_⟩
  · cases h : c.entity with
    | none => simp [BaseComponent.getComponentE, BaseComponent.getComponent, h]
    | some e =>
        simp [BaseComponent.getComponentE, BaseComponent.getComponent, h,
          Entity.getComponentE]
  · intro h
    simp [BaseComponent.getComponent, h]
  · intro e h
    simp [BaseComponent.getComponent, h]

/-- C6 witness: the theorem applied to a detached component and to a component
attached to an entity holding a matching instance. -/
theorem c6_getComponent_total_witness :
    ((BaseComponent.create none).getComponent 5 = none) ∧
    ({ entity := some ⟨[⟨5, 0⟩, ⟨7, 1⟩]⟩, isEnabled := true : BaseComponent }.getComponent 7 =
      Entity.getComponent ⟨[⟨5, 0⟩, ⟨7, 1⟩]⟩ 7) :=
  ⟨(c6_getComponent_total (BaseComponent.create none) 5).2.1 rfl,
    (c6_getComponent_total
        { entity := some ⟨[⟨5, 0⟩, ⟨7, 1⟩]⟩, isEnabled := true } 7).2.2
      ⟨[⟨5, 0⟩, ⟨7, 1⟩]⟩ rfl⟩

/-! ### Keyboard (src/packages/2d/src/Components/Keyboard.ts)

The component's externally visible effects on OS-level listeners
(`document.addEventListener` / `document.removeEventListener`) are embedded as
emitted `ListenerAction`s; its mutable state (`pressed`, the module-global
`firstKeyHasHappened` and `pendingFirstKeyHandlers`) is threaded explicitly. -/

/-- The two document events the Keyboard component listens to. -/
inductive ListenerKind where
  | keydown
  | keyup
deriving Repr, DecidableEq

/-- An OS-level listener registration effect. -/
inductive ListenerAction where
  | add (k : ListenerKind)
  | remove (k : ListenerKind)
deriving Repr, DecidableEq

/-- JS `Set.add` on strings: insert only when absent. -/
def strSetAdd (l : List String) (s : String) : List String :=
  if s ∈ l then l else l ++ [s]

/-- The state touched by the Keyboard component's handlers: the `pressed` set,
and the module-globals `firstKeyHasHappened` and `pendingFirstKeyHandlers`
(modelled by how many handlers are queued). -/
structure KbState where
  pressed : List String
  firstKeyHasHappened : Bool
  pendingHandlers : Nat
deriving Repr, DecidableEq

/-- `processKeydown`: fire-and-clear the pending first-key handlers on the first
ever keydown, then (unless the event is a repeat) add the key to `pressed`. -/
def processKeydown (s : KbState) (key : String) (isRepeat : Bool) : KbState :=
  let s1 :=
    if s.firstKeyHasHappened then s
    else { s with firstKeyHasHappened := true, pendingHandlers := 0 }
  if isRepeat then s1 else { s1 with pressed := strSetAdd s1.pressed key }

/-- `processKeyup`: unless the event is a repeat, delete the key from `pressed`. -/
def processKeyup (s : KbState) (key : String) (isRepeat : Bool) : KbState :=
  if isRepeat then s else { s with pressed := s.pressed.erase key }

/-- The entry points through which the Keyboard component's code can run: the
`onEnabled` / `onDisabled` lifecycle hooks, the two document event handlers, and
a `useFirstKey` call (which only queues a handler). -/
inductive KbStep where
  | onEnabledHook
  | onDisabledHook
  | keydownEvent (key : String) (isRepeat : Bool)
  | keyupEvent (key : String) (isRepeat : Bool)
  | useFirstKeyCall
deriving Repr, DecidableEq

/-- One entry-point invocation: the resulting state and the OS-level listener
actions it performs.  The `onEnabled` hook body is
`document.addEventListener("keydown", ...); document.addEventListener("keyup", ...)`;
the `onDisabled` hook body removes the same two listeners; no other entry point
touches document listeners. -/
def kbStep (s : KbState) : KbStep → KbState × List ListenerAction
  | .onEnabledHook =>
      (s, [ListenerAction.add ListenerKind.keydown, ListenerAction.add ListenerKind.keyup])
  | .onDisabledHook =>
      (s, [ListenerAction.remove ListenerKind.keydown, ListenerAction.remove ListenerKind.keyup])
  | .keydownEvent k r => (processKeydown s k r, [])
  | .keyupEvent k r => (processKeyup s k r, [])
  | .useFirstKeyCall => ({ s with pendingHandlers := s.pendingHandlers + 1 }, [])

/-- Run a sequence of entry-point invocations, concatenating listener actions. -/
def kbRun : KbState → List KbStep → KbState × List ListenerAction
  | s, [] => (s, [])
  | s, st :: sts =>
    let r1 := kbStep s st
    let r2 := kbRun r1.1 sts
    (r2.1, r1.2 ++ r2.2)

/-- C8: the Keyboard component registers its keydown and keyup document listeners
exactly in its `onEnabled` hook and unregisters them exactly in its `onDisabled`
hook; any entry point that performs a listener action is one of those two hooks,
and a run containing neither hook performs no listener action at all. -/
theorem c8_listeners_only_in_hooks :
    (∀ s : KbState, (kbStep s KbStep.onEnabledHook).2 =
        [ListenerAction.add ListenerKind.keydown, ListenerAction.add ListenerKind.keyup]) ∧
    (∀ s : KbState, (kbStep s KbStep.onDisabledHook).2 =
        [ListenerAction.remove ListenerKind.keydown, ListenerAction.remove ListenerKind.keyup]) ∧
    (∀ (s : KbState) (st : KbStep), (kbStep s st).2 ≠ [] →
        st = KbStep.onEnabledHook ∨ st = KbStep.onDisabledHook) ∧
    (∀ (s : KbState) (sts : List KbStep),
        (∀ st ∈ sts, st ≠ KbStep.onEnabledHook ∧ st ≠ KbStep.onDisabledHook) →
        (kbRun s sts).2 = []) := by
  refine ⟨fun s => rfl, fun s => rfl, fun s st h => ?_, fun s sts h => ?_⟩
  · cases st with
    | onEnabledHook => exact Or.inl rfl
    | onDisabledHook => exact Or.inr rfl
    | keydownEvent k r => exact absurd rfl h
    | keyupEvent k r => exact absurd rfl h
    | useFirstKeyCall => exact absurd rfl h
  · induction sts generalizing s with
    | nil => rfl
    | cons st sts ih =>
        have hst := h st (List.mem_cons_self st sts)
        have hrest : ∀ x ∈ sts, x ≠ KbStep.onEnabledHook ∧ x ≠ KbStep.onDisabledHook :=
          fun x hx => h x (List.mem_cons_of_mem st hx)
        have hempty : (kbStep s st).2 = [] := by
          cases st with
          | onEnabledHook => exact absurd rfl hst.1
          | onDisabledHook => exact absurd rfl hst.2
          | keydownEvent k r => rfl
          | keyupEvent k r => rfl
          | useFirstKeyCall => rfl
        simp only [kbRun, hempty, List.nil_append]
        exact ih _ hrest

/-- C8 witness: a concrete run through key events and a `useFirstKey` call,
containing neither lifecycle hook, performs no listener action; and the hooks
themselves emit exactly their registrations. -/
theorem c8_listeners_only_in_hooks_witness :
    (kbStep ⟨[], false, 0⟩ KbStep.onEnabledHook).2 =
        [ListenerAction.add ListenerKind.keydown, ListenerAction.add ListenerKind.keyup] ∧
    (kbStep ⟨[], false, 0⟩ KbStep.onDisabledHook).2 =
        [ListenerAction.remove ListenerKind.keydown,
          ListenerAction.remove ListenerKind.keyup] ∧
    (kbRun ⟨[], false, 0⟩
        [KbStep.useFirstKeyCall, KbStep.keydownEvent "w" false,
          KbStep.keyupEvent "w" false]).2 = [] :=
  ⟨c8_listeners_only_in_hooks.1 ⟨[], false, 0⟩,
    c8_listeners_only_in_hooks.2.1 ⟨[], false, 0⟩,
    c8_listeners_only_in_hooks.2.2.2 ⟨[], false, 0⟩
      [KbStep.useFirstKeyCall, KbStep.keydownEvent "w" false,
        KbStep.keyupEvent "w" false]
      (by decide)⟩

/-! ### `vectorFromKeys` (src/packages/2d/src/Components/Keyboard.ts)

Angles are embedded in units of π (`half = Math.PI` becomes `1`,
`quarter = Math.PI / 2` becomes `1/2`, `eighth = Math.PI / 4` becomes `1/4`);
the claim only concerns the magnitude, which the scaling does not affect. -/

/-- A `Vector` as constructed by `new Vector(new Angle(angle), magnitude)`:
the angle in units of π and the magnitude. -/
structure Vec where
  angle : ℚ
  magnitude : ℕ
deriving Repr, DecidableEq

/-- JS `String.prototype.toUpperCase`, character-wise (the key names involved are
ASCII, on which JS and `Char.toUpper` agree). -/
def jsToUpperCase (s : String) : String :=
  String.mk (s.data.map Char.toUpper)

/-- The test the source applies to each direction key:
`pressedKeys.has(k) || pressedKeys.has(k.toUpperCase())`. -/
def keyOrUpperPressed (pressed : List String) (k : String) : Bool :=
  pressed.contains k || pressed.contains (jsToUpperCase k)

/-- `vectorFromKeys(upKey, downKey, leftKey, rightKey)`: the if/else chain of the
source, with `angle` initialised to 0 and `magnitude` to 1, and `magnitude = 0`
in the final else branch. -/
def vectorFromKeys (pressed : List String)
    (upKey downKey leftKey rightKey : String) : Vec :=
  let half : ℚ := 1
  let quarter : ℚ := 1/2
  let eighth : ℚ := 1/4
  let up := keyOrUpperPressed pressed upKey
  let down := keyOrUpperPressed pressed downKey
  let left := keyOrUpperPressed pressed leftKey
  let right := keyOrUpperPressed pressed rightKey
  if up && right then { angle := -eighth, magnitude := 1 }
  else if up && left then { angle := half + eighth, magnitude := 1 }
  else if down && right then { angle := eighth, magnitude := 1 }
  else if down && left then { angle := quarter + eighth, magnitude := 1 }
  else if up && !down then { angle := -quarter, magnitude := 1 }
  else if down && !up then { angle := quarter, magnitude := 1 }
  else if left && !right then { angle := half, magnitude := 1 }
  else if right && !left then { angle := 0, magnitude := 1 }
  else { angle := 0, magnitude := 0 }

/-- C9: opposing direction keys cancel.  When both the up key and the down key
are pressed (in either letter case) while neither horizontal key is, the returned
`Vector` has magnitude 0; symmetrically when both horizontal keys are pressed
while neither vertical key is. -/
theorem c9_opposing_keys_cancel (pressed : List String)
    (upKey downKey leftKey rightKey : String) :
    (keyOrUpperPressed pressed upKey = true →
      keyOrUpperPressed pressed downKey = true →
      keyOrUpperPressed pressed leftKey = false →
      keyOrUpperPressed pressed rightKey = false →
      (vectorFromKeys pressed upKey downKey leftKey rightKey).magnitude = 0) ∧
    (keyOrUpperPressed pressed leftKey = true →
      keyOrUpperPressed pressed rightKey = true →
      keyOrUpperPressed pressed upKey = false →
      keyOrUpperPressed pressed downKey = false →
      (vectorFromKeys pressed upKey downKey leftKey rightKey).magnitude = 0) := by
  constructor
  · intro hu hd hl hr
    simp [vectorFromKeys, hu, hd, hl, hr]
  · intro hl hr hu hd
    simp [vectorFromKeys, hu, hd, hl, hr]

/-- C9 witness: with "w" and "s" both pressed (and no horizontal key) the vector
has magnitude 0, and with "A" and "d" both pressed (and no vertical key) it has
magnitude 0. -/
theorem c9_opposing_keys_cancel_witness :
    (vectorFromKeys ["w", "s"] "w" "s" "a" "d").magnitude = 0 ∧
    (vectorFromKeys ["A", "d"] "w" "s" "a" "d").magnitude = 0 :=
  ⟨(c9_opposing_keys_cancel ["w", "s"] "w" "s" "a" "d").1
      (by decide) (by decide) (by decide) (by decide),
    (c9_opposing_keys_cancel ["A", "d"] "w" "s" "a" "d").2
      (by decide) (by decide) (by decide) (by decide)⟩

/-! ### Hit-testing (src/packages/2d/src/Hooks/useEntitiesAtPoint.ts)

The collaborators this hook consumes (`Entity.descendants`, `Geometry`,
`useEntityTransforms`, `useCanvasDrawOrderSort`, `Canvas.DrawOrder.isDebugOverlay`)
are part of this repository but not under `src/`; they are modelled from the spec:
entity transforms are translations composed down the ancestor chain, geometry is a
shape with a point-containment predicate (rectangles suffice for the claims), and
the canonical draw order is the pre-order, insertion-order-respecting traversal. -/

/-- A 2D point with integer coordinates. -/
structure Pt where
  x : Int
  y : Int
deriving Repr, DecidableEq

/-- Pointwise addition. -/
def Pt.add (a b : Pt) : Pt :=
  { x := a.x + b.x, y := a.y + b.y }

/-- Pointwise subtraction. -/
def Pt.sub (a b : Pt) : Pt :=
  { x := a.x - b.x, y := a.y - b.y }

/-- Modelled from the spec: a geometry shape exposing a point-containment
predicate (an axis-aligned rectangle, which covers the claims' scenarios). -/
structure Shape where
  x : Int
  y : Int
  w : Int
  h : Int
deriving Repr, DecidableEq

/-- Modelled from the spec: the shape's own containment predicate (boundary
inclusive). -/
def Shape.containsPoint (r : Shape) (p : Pt) : Bool :=
  (r.x ≤ p.x && p.x ≤ r.x + r.w) && (r.y ≤ p.y && p.y ≤ r.y + r.h)

/-- Modelled from the spec: a `Geometry` component, carrying its shape and the
flag `Canvas.DrawOrder.isDebugOverlay` inspects. -/
structure GeomComp where
  shape : Shape
  debugOverlayFlag : Bool
deriving Repr, DecidableEq

/-- Modelled from the spec: `Canvas.DrawOrder.isDebugOverlay` — the predicate
singling out components flagged as debug overlays (true exactly on them). -/
def isDebugOverlay (g : GeomComp) : Bool :=
  g.debugOverlayFlag

/-- Modelled from the spec: an entity of the scene tree, with at most one
geometry component, a local translation, and an ordered child sequence. -/
inductive Ent where
  | node (eid : Nat) (geom : Option GeomComp) (pos : Pt) (children : List Ent)
deriving Repr

/-- The entity's identity. -/
def Ent.eid : Ent → Nat
  | .node i _ _ _ => i

/-- The entity's geometry component (`ent.getComponent(Geometry)`). -/
def Ent.geom : Ent → Option GeomComp
  | .node _ g _ _ => g

mutual
/-- Modelled from the spec: `descendants()` — all entities strictly below this
one, in pre-order (parent before children, children in child-sequence order). -/
def Ent.descendants : Ent → List Ent
  | .node _ _ _ cs => descendantsList cs
/-- Pre-order of a forest: each root followed by its descendants. -/
def descendantsList : List Ent → List Ent
  | [] => []
  | c :: rest => c :: Ent.descendants c ++ descendantsList rest
end

/-- `const allEnts = [rootEnt, ...rootsDescendants]`. -/
def allEnts (root : Ent) : List Ent :=
  root :: root.descendants

mutual
/-- Modelled from the spec: each entity of the tree paired with its world
translation (its ancestors' translations composed with its own), in the same
pre-order as `allEnts`. -/
def entsWithOffset (base : Pt) : Ent → List (Pt × Ent)
  | .node i g p cs =>
      (Pt.add base p, Ent.node i g p cs) :: entsWithOffsetList (Pt.add base p) cs
/-- The offset-annotated pre-order of a forest. -/
def entsWithOffsetList (base : Pt) : List Ent → List (Pt × Ent)
  | [] => []
  | c :: rest => entsWithOffset base c ++ entsWithOffsetList base rest
end

/-- The filter body of lines 16–25: the entity has a geometry component and its
shape contains the world position transformed into the entity's local space (the
inverse of the entity's world translation). -/
def hitMatches (worldPos : Pt) (oe : Pt × Ent) : Bool :=
  match oe.2.geom with
  | none => false
  | some g => g.shape.containsPoint (Pt.sub worldPos oe.1)

/-- `const entsUnderCursor = allEnts.filter(...)`: the entities whose geometry
contains the point, in tree pre-order.  (The world transform of each entity is
carried alongside it instead of being recomputed per entity; the filtered
sequence is the same.) -/
def entsUnderCursor (root : Ent) (worldPos : Pt) : List Ent :=
  ((entsWithOffset { x := 0, y := 0 } root).filter (hitMatches worldPos)).map Prod.snd

/-- Modelled from the spec: `useCanvasDrawOrderSort()` applied to the matched
entities — "the canonical draw order for exactly the geometry components of the
matched entities", i.e. the tree's pre-order restricted to the matched entities,
each contributing its geometry component (paired with its entity, the
`component.entity` back-reference). -/
def useCanvasDrawOrderSort (root : Ent) (ents : List Ent) : List (GeomComp × Ent) :=
  (allEnts root).filterMap (fun e =>
    if ents.any (fun me => me.eid == e.eid) then
      e.geom.map (fun g => (g, e))
    else none)

/-- The dedup loop of lines 33–42: keep the first occurrence of each
`component.entity`. -/
def dedupByEntity : List (GeomComp × Ent) → List Nat → List Ent
  | [], _ => []
  | ce :: rest, seen =>
      if seen.contains ce.2.eid then dedupByEntity rest seen
      else ce.2 :: dedupByEntity rest (ce.2.eid :: seen)

/-- `useEntitiesAtPoint(worldPos)` as the source writes it, including the
`.filter(Canvas.DrawOrder.isDebugOverlay)` applied to the sorted components. -/
def useEntitiesAtPoint (root : Ent) (worldPos : Pt) : List Ent :=
  let entsUnder := entsUnderCursor root worldPos
  if entsUnder.length < 2 then entsUnder
  else
    let components :=
      ((useCanvasDrawOrderSort root entsUnder).filter
        (fun ce => isDebugOverlay ce.1)).reverse
    dedupByEntity components []

/-- The ranking stage as the spec words it: filter the canonical draw order to
only the components NOT flagged as debug overlays, then reverse.  Kept for
comparison with `useEntitiesAtPoint`. -/
def useEntitiesAtPointSpec (root : Ent) (worldPos : Pt) : List Ent :=
  let entsUnder := entsUnderCursor root worldPos
  if entsUnder.length < 2 then entsUnder
  else
    let components :=
      ((useCanvasDrawOrderSort root entsUnder).filter
        (fun ce => !isDebugOverlay ce.1)).reverse
    dedupByEntity components []

/-- The C2 scenario's entity A: added first, geometry a 100×100 square at the
origin, not a debug overlay. -/
def entA : Ent :=
  Ent.node 1
    (some { shape := { x := 0, y := 0, w := 100, h := 100 }, debugOverlayFlag := false })
    { x := 0, y := 0 } []

/-- The C2 scenario's entity B: added second, geometry a 50×50 square at the
origin, not a debug overlay. -/
def entB : Ent :=
  Ent.node 2
    (some { shape := { x := 0, y := 0, w := 50, h := 50 }, debugOverlayFlag := false })
    { x := 0, y := 0 } []

/-- The C2 scenario's tree: a geometry-less root with children [A, B]. -/
def rootAB : Ent :=
  Ent.node 0 none { x := 0, y := 0 } [entA, entB]

/-- C2: on the two-overlapping-entities scenario (A added first, B added second,
both geometries containing the point (10,10)), `useEntitiesAtPoint` does NOT
return [B, A]: because the sorted components are filtered with
`Canvas.DrawOrder.isDebugOverlay` — keeping only debug overlays — the ranked list
is empty. -/
theorem c2_ranking_returns_empty :
    useEntitiesAtPoint rootAB { x := 10, y := 10 } = [] ∧
    useEntitiesAtPoint rootAB { x := 10, y := 10 } ≠ [entB, entA] := by
  refine ⟨rfl, ?_⟩
  intro h
  have : ([] : List Ent) = [entB, entA] := by
    calc ([] : List Ent) = useEntitiesAtPoint rootAB { x := 10, y := 10 } := rfl
    _ = [entB, entA] := h
  exact List.noConfusion this

/-- The C3 scenario's entity A (same shape as the C2 scenario, separate tree so
the two claims stay independent). -/
def entA3 : Ent :=
  Ent.node 1
    (some { shape := { x := 0, y := 0, w := 100, h := 100 }, debugOverlayFlag := false })
    { x := 0, y := 0 } []

/-- The C3 scenario's entity B. -/
def entB3 : Ent :=
  Ent.node 2
    (some { shape := { x := 0, y := 0, w := 50, h := 50 }, debugOverlayFlag := false })
    { x := 0, y := 0 } []

/-- The C3 scenario's tree. -/
def rootAB3 : Ent :=
  Ent.node 0 none { x := 0, y := 0 } [entA3, entB3]

/-- C3: the code filters the canonical draw order with
`Canvas.DrawOrder.isDebugOverlay`, keeping only debug-overlay components — the
opposite of the claimed "only those flagged as visible/non-debug-overlay".  At a
point covered by two visible (non-debug-overlay) geometry components the code
yields the empty ranking while the ranking described by the claim yields the
last-drawn-first sequence [B, A]. -/
theorem c3_filter_polarity_reversed :
    ((useCanvasDrawOrderSort rootAB3 (entsUnderCursor rootAB3 { x := 10, y := 10 })).filter
        (fun ce => isDebugOverlay ce.1)) = [] ∧
    useEntitiesAtPoint rootAB3 { x := 10, y := 10 } = [] ∧
    useEntitiesAtPointSpec rootAB3 { x := 10, y := 10 } = [entB3, entA3] := by
  exact ⟨rfl, rfl, rfl⟩

/-- C4: for every tree and world position, when fewer than two entities match
(geometry containing the point after the world-to-local transform),
`useEntitiesAtPoint` returns exactly the matched entities, unranked; in
particular a point matched by no entity yields the empty sequence. -/
theorem c4_short_circuit (root : Ent) (p : Pt)
    (h : (entsUnderCursor root p).length < 2) :
    useEntitiesAtPoint root p = entsUnderCursor root p ∧
      (entsUnderCursor root p = [] → useEntitiesAtPoint root p = []) := by
  constructor
  · simp only [useEntitiesAtPoint, if_pos h]
  · intro hnil
    simp only [useEntitiesAtPoint, hnil, List.length_nil, if_pos (by omega : 0 < 2)]

/-- C4 witness: in the single-entity tree, the point (10,10) is matched by the
one entity only, and the point (500,500) by none. -/
theorem c4_short_circuit_witness :
    (useEntitiesAtPoint (Ent.node 0 none { x := 0, y := 0 } [entA]) { x := 10, y := 10 } =
      entsUnderCursor (Ent.node 0 none { x := 0, y := 0 } [entA]) { x := 10, y := 10 }) ∧
    useEntitiesAtPoint (Ent.node 0 none { x := 0, y := 0 } [entA]) { x := 500, y := 500 } = [] :=
  ⟨(c4_short_circuit (Ent.node 0 none { x := 0, y := 0 } [entA]) { x := 10, y := 10 }
      (by decide)).1,
    (c4_short_circuit (Ent.node 0 none { x := 0, y := 0 } [entA]) { x := 500, y := 500 }
      (by decide)).2 rfl⟩

/-! ### Tiled (src/packages/2d/src/Components/Tiled.ts)

XML source data (`XMLSourceLoader.Element`) is a string or an element with a tag
name, attributes and optional children; attribute values carry the JS runtime
type the source's `typeof` checks inspect (number or string).  Thrown `Error`s
become `Except.error` carrying the exact message string. -/

/-- An XML attribute value as the source's `typeof` checks see it. -/
inductive AttrValue where
  | num (n : Int)
  | str (s : String)
deriving Repr, DecidableEq

/-- `XMLSourceLoader.Element`: a string, or an element with tag name, attributes
and (possibly absent) children. -/
inductive XMLElement where
  | text (s : String)
  | elem (tagName : String) (attributes : List (String × AttrValue))
      (children : Option (List XMLElement))
deriving Repr

/-- Attribute access (`el.attributes.name`); absent attributes are `none`
(JS `undefined`). -/
def getAttr (attrs : List (String × AttrValue)) (name : String) : Option AttrValue :=
  (attrs.find? (fun a => a.1 == name)).map (fun a => a.2)

/-- The find predicate of `getElementByTagName`:
`typeof child !== "string" && child.tagName === tagName`. -/
def isTagged (tagName : String) : XMLElement → Bool
  | .text _ => false
  | .elem t _ _ => t == tagName

/-- `getElementByTagName(parent, tagName)`: `null` for a string parent or absent
children, otherwise the first non-string child with the given tag. -/
def getElementByTagName (parent : XMLElement) (tagName : String) : Option XMLElement :=
  match parent with
  | .text _ => none
  | .elem _ _ none => none
  | .elem _ _ (some cs) => cs.find? (isTagged tagName)

/-- The configuration handed to the `SpriteSheet` component by `Tileset`
(`Number(n) || 0` is the identity on the integer attribute values the model
admits: a nonzero integer is truthy, and `0 || 0` is `0`). -/
structure SpriteSheetCfg where
  url : String
  tileWidth : Int
  tileHeight : Int
deriving Repr, DecidableEq

/-- The api object returned by `Tiled.Tileset`. -/
structure TilesetApi where
  spriteSheet : SpriteSheetCfg
deriving Repr, DecidableEq

/-- `Tiled.Tileset(data)`: the validation chain of lines 46–96, with each
`throw new Error(msg)` becoming `Except.error msg`. -/
def Tileset (data : XMLElement) : Except String TilesetApi :=
  match data with
  | .text _ => .error "Invalid XML data passed to Tiled.Tileset"
  | .elem tagName attrs children =>
    if tagName != "tileset" || children.isNone then
      .error "Invalid XML data passed to Tiled.Tileset"
    else
      match getElementByTagName (.elem tagName attrs children) "image" with
      | none => .error "XML data passed to Tiled.Tileset does not contain an image"
      | some (.text _) => .error "XML data passed to Tiled.Tileset does not contain an image"
      | some (.elem _ imageAttrs _) =>
        match getAttr imageAttrs "source" with
        | some (.str imageUrl) =>
          match getAttr attrs "tilewidth" with
          | some (.num tileWidth) =>
            match getAttr attrs "tileheight" with
            | some (.num tileHeight) =>
              .ok { spriteSheet :=
                { url := imageUrl, tileWidth := tileWidth, tileHeight := tileHeight } }
            | _ =>
              .error "tileheight attribute of tileset in XML data passed to Tiled.Tileset is not a number"
          | _ =>
            .error "tilewidth attribute of tileset in XML data passed to Tiled.Tileset is not a number"
        | _ =>
          .error "source attribute of image in XML data passed to Tiled.Tileset is not a string"

/-- Modelled from the spec: the `Grid` container from `../Models` (not under
`src/`): a size and the stored cell data.  A cell holds a JS number; `none`
stands for NaN. -/
structure Grid where
  sizeX : Int
  sizeY : Int
  cells : List (Option Int)
deriving Repr, DecidableEq

/-- Modelled from the spec: `new Grid(width, height, fill)` fills the grid with
the fill value. -/
def Grid.init (w h fill : Int) : Grid :=
  { sizeX := w, sizeY := h, cells := List.replicate (w.toNat * h.toNat) (some fill) }

/-- Modelled from the spec: `grid.setData(numbers)` replaces the stored cell
data. -/
def Grid.setData (g : Grid) (numbers : List (Option Int)) : Grid :=
  { g with cells := numbers }

/-- JS `Array.prototype.join(" ")` stringifies each child: a text child is
itself, an element object stringifies as "[object Object]". -/
def jsStringify : XMLElement → String
  | .text s => s
  | .elem _ _ _ => "[object Object]"

/-- `dataEl.children.join(" ")`. -/
def csvOfChildren (cs : List XMLElement) : String :=
  String.intercalate " " (cs.map jsStringify)

/-- JS `String.prototype.split(",")`: the (possibly empty) substrings between
commas; a string with no comma yields itself as the single piece. -/
def splitOnCommaAux : List Char → List Char → List String
  | [], acc => [String.mk acc.reverse]
  | c :: rest, acc =>
    if c = ',' then String.mk acc.reverse :: splitOnCommaAux rest []
    else splitOnCommaAux rest (c :: acc)

/-- `csv.split(",")`. -/
def jsSplitOnComma (s : String) : List String :=
  splitOnCommaAux s.data []

/-- JS `String.prototype.trim`: strip whitespace from both ends. -/
def jsTrim (s : String) : String :=
  String.mk (((s.data.dropWhile Char.isWhitespace).reverse.dropWhile
    Char.isWhitespace).reverse)

/-- The numeric value of a digit character, if it is one. -/
def digitVal (c : Char) : Option Nat :=
  if '0' ≤ c ∧ c ≤ '9' then some (c.toNat - '0'.toNat) else none

/-- Parse a nonempty all-digit character list as a natural number. -/
def parseDigits : List Char → Option Nat
  | [] => none
  | cs =>
    cs.foldl
      (fun acc c =>
        match acc, digitVal c with
        | some a, some d => some (a * 10 + d)
        | _, _ => none)
      (some 0)

/-- JS `Number(s)` on an already-trimmed string, on the integer literals that
occur in Tiled csv tile data: the empty string is 0, an optional sign followed
by digits is the corresponding integer, anything else is NaN (`none`).  (Float
and hex formats JS would also accept do not occur in csv tile data and are
outside the model.) -/
def jsNumber (s : String) : Option Int :=
  match s.data with
  | [] => some 0
  | '-' :: rest => (parseDigits rest).map (fun n => -(n : Int))
  | '+' :: rest => (parseDigits rest).map (fun n => (n : Int))
  | cs => (parseDigits cs).map (fun n => (n : Int))

/-- The api object returned by `Tiled.Layer`. -/
structure LayerApi where
  grid : Grid
  visible : Bool
deriving Repr, DecidableEq

/-- `layer.attributes.visible !== 0`. -/
def visibleOf (attrs : List (String × AttrValue)) : Bool :=
  if getAttr attrs "visible" = some (AttrValue.num 0) then false else true

/-- `Tiled.Layer(layer)`: the validation chain of lines 105–137 and the grid
construction of lines 139–147
(`csv.split(",").map((cell) => Number(cell.trim())).map((tileIndex) => tileIndex - 1)`). -/
def Layer (layer : XMLElement) : Except String LayerApi :=
  match layer with
  | .text _ => .error "Invalid XML data passed to Tiled.Layer"
  | .elem tagName attrs children =>
    if tagName != "layer" then .error "Invalid XML data passed to Tiled.Layer"
    else
      match getAttr attrs "width" with
      | some (.num width) =>
        match getAttr attrs "height" with
        | some (.num height) =>
          match getElementByTagName (.elem tagName attrs children) "data" with
          | none => .error "`data` element not found in XML data passed to Tiled.Layer"
          | some (.text _) => .error "`data` element not found in XML data passed to Tiled.Layer"
          | some (.elem _ dataAttrs dataChildren) =>
            if getAttr dataAttrs "encoding" = some (AttrValue.str "csv") then
              let grid0 := Grid.init width height 0
              let grid :=
                match dataChildren with
                | none => grid0
                | some dcs =>
                  let csv := csvOfChildren dcs
                  let numbers :=
                    ((jsSplitOnComma csv).map (fun cell => jsNumber (jsTrim cell))).map
                      (Option.map (fun tileIndex => tileIndex - 1))
                  grid0.setData numbers
              .ok { grid := grid, visible := visibleOf attrs }
            else
              .error "XML layer data passed to Tiled.Layer does not use csv encoding. Only csv encoding is supported at this time."
        | _ => .error "`height` attribute in XML data passed to Tiled.Layer was not a number"
      | _ => .error "`width` attribute in XML data passed to Tiled.Layer was not a number"

/-- Whether an optional attribute value is present and a string. -/
def isStrAttr : Option AttrValue → Bool
  | some (.str _) => true
  | _ => false

/-- Whether an optional attribute value is present and a number. -/
def isNumAttr : Option AttrValue → Bool
  | some (.num _) => true
  | _ => false

/-- Well-shapedness for `Tiled.Tileset` inputs, stated as the flat conjunction of
the spec's requirements: tag name `tileset`, children present, an `image` child
whose `source` attribute is a string, numeric `tilewidth` and `tileheight`. -/
def wellFormedTileset : XMLElement → Bool
  | .text _ => false
  | .elem tagName attrs children =>
    tagName == "tileset" && children.isSome &&
    (match getElementByTagName (.elem tagName attrs children) "image" with
     | some (.elem _ imageAttrs _) => isStrAttr (getAttr imageAttrs "source")
     | _ => false) &&
    isNumAttr (getAttr attrs "tilewidth") && isNumAttr (getAttr attrs "tileheight")

/-- Well-shapedness for `Tiled.Layer` inputs: tag name `layer`, numeric `width`
and `height`, and a `data` child with encoding `csv`. -/
def wellFormedLayer : XMLElement → Bool
  | .text _ => false
  | .elem tagName attrs children =>
    tagName == "layer" &&
    isNumAttr (getAttr attrs "width") && isNumAttr (getAttr attrs "height") &&
    (match getElementByTagName (.elem tagName attrs children) "data" with
     | some (.elem _ dataAttrs _) =>
        (match getAttr dataAttrs "encoding" with
         | some (.str e) => e == "csv"
         | _ => false)
     | _ => false)

theorem tileset_isOk_eq (data : XMLElement) :
    (Tileset data).isOk = wellFormedTileset data := by
  cases data with
  | text s => rfl
  | elem tag attrs children =>
    by_cases htag : tag = "tileset"
    · subst htag
      cases children with
      | none => rfl
      | some cs =>
        simp only [Tileset, wellFormedTileset]
        rw [if_neg (by simp)]
        cases himg : getElementByTagName (XMLElement.elem "tileset" attrs (some cs)) "image" with
        | none => simp [himg, Except.isOk, Except.toBool]
        | some img =>
          cases img with
          | text s2 => simp [himg, Except.isOk, Except.toBool]
          | elem itag iattrs ics =>
            simp only [himg]
            cases hsrc : getAttr iattrs "source" with
            | none => simp [hsrc, isStrAttr, Except.isOk, Except.toBool]
            | some v =>
              cases v with
              | num n => simp [hsrc, isStrAttr, Except.isOk, Except.toBool]
              | str u =>
                simp only [hsrc, isStrAttr]
                cases htw : getAttr attrs "tilewidth" with
                | none => simp [htw, isNumAttr, Except.isOk, Except.toBool]
                | some w =>
                  cases w with
                  | str ws => simp [htw, isNumAttr, Except.isOk, Except.toBool]
                  | num wn =>
                    simp only [htw, isNumAttr]
                    cases hth : getAttr attrs "tileheight" with
                    | none => simp [hth, isNumAttr, Except.isOk, Except.toBool]
                    | some h =>
                      cases h with
                      | str hs => simp [hth, isNumAttr, Except.isOk, Except.toBool]
                      | num hn => simp [hth, isNumAttr, Except.isOk, Except.toBool]
    · have hbne : (tag != "tileset") = true := by simp [htag]
      simp [Tileset, wellFormedTileset, hbne, htag, Except.isOk, Except.toBool]

theorem layer_isOk_eq (layer : XMLElement) :
    (Layer layer).isOk = wellFormedLayer layer := by
  cases layer with
  | text s => rfl
  | elem tag attrs children =>
    by_cases htag : tag = "layer"
    · subst htag
      simp only [Layer, wellFormedLayer]
      rw [if_neg (by simp)]
      cases hw : getAttr attrs "width" with
      | none => simp [isNumAttr, Except.isOk, Except.toBool]
      | some w =>
        cases w with
        | str ws => simp [isNumAttr, Except.isOk, Except.toBool]
        | num wn =>
          simp only [isNumAttr]
          cases hh : getAttr attrs "height" with
          | none => simp [isNumAttr, Except.isOk, Except.toBool]
          | some hv =>
            cases hv with
            | str hs => simp [isNumAttr, Except.isOk, Except.toBool]
            | num hn =>
              simp only [isNumAttr]
              cases hd : getElementByTagName (XMLElement.elem "layer" attrs children) "data" with
              | none => simp [Except.isOk, Except.toBool]
              | some d =>
                cases d with
                | text ds => simp [Except.isOk, Except.toBool]
                | elem dtag dattrs dchildren =>
                  cases he2 : getAttr dattrs "encoding" with
                  | none => simp [he2, Except.isOk, Except.toBool]
                  | some ev =>
                    cases ev with
                    | num n => simp [he2, Except.isOk, Except.toBool]
                    | str es =>
                      by_cases hcsv : es = "csv"
                      · subst hcsv
                        simp [he2, Except.isOk, Except.toBool]
                      · simp [he2, hcsv, Except.isOk, Except.toBool]
    · have hbne : (tag != "layer") = true := by simp [htag]
      simp [Layer, wellFormedLayer, hbne, htag, Except.isOk, Except.toBool]

theorem tileset_error_on_text (s : String) :
    Tileset (XMLElement.text s) =
      Except.error "Invalid XML data passed to Tiled.Tileset" := rfl

theorem tileset_error_on_shape (tag : String) (attrs : List (String × AttrValue))
    (children : Option (List XMLElement)) (h : tag ≠ "tileset" ∨ children = none) :
    Tileset (XMLElement.elem tag attrs children) =
      Except.error "Invalid XML data passed to Tiled.Tileset" := by
  rcases h with h | h
  · have hb : (tag != "tileset") = true := by simp [h]
    simp [Tileset, hb]
  · subst h
    simp [Tileset]

theorem tileset_error_no_image (attrs : List (String × AttrValue))
    (cs : List XMLElement)
    (h : getElementByTagName (XMLElement.elem "tileset" attrs (some cs)) "image" = none) :
    Tileset (XMLElement.elem "tileset" attrs (some cs)) =
      Except.error "XML data passed to Tiled.Tileset does not contain an image" := by
  simp only [Tileset]
  rw [if_neg (by simp), h]

theorem tileset_error_source_not_string (attrs : List (String × AttrValue))
    (cs : List XMLElement) (itag : String) (iattrs : List (String × AttrValue))
    (ics : Option (List XMLElement))
    (himg : getElementByTagName (XMLElement.elem "tileset" attrs (some cs)) "image" =
      some (XMLElement.elem itag iattrs ics))
    (hsrc : isStrAttr (getAttr iattrs "source") = false) :
    Tileset (XMLElement.elem "tileset" attrs (some cs)) =
      Except.error "source attribute of image in XML data passed to Tiled.Tileset is not a string" := by
  simp only [Tileset]
  rw [if_neg (by simp), himg]
  cases hs : getAttr iattrs "source" with
  | none => simp [hs]
  | some v =>
    cases v with
    | num n => simp [hs]
    | str u => rw [hs] at hsrc; simp [isStrAttr] at hsrc

theorem tileset_error_tilewidth (attrs : List (String × AttrValue))
    (cs : List XMLElement) (itag : String) (iattrs : List (String × AttrValue))
    (ics : Option (List XMLElement))
    (himg : getElementByTagName (XMLElement.elem "tileset" attrs (some cs)) "image" =
      some (XMLElement.elem itag iattrs ics))
    (hsrc : isStrAttr (getAttr iattrs "source") = true)
    (htw : isNumAttr (getAttr attrs "tilewidth") = false) :
    Tileset (XMLElement.elem "tileset" attrs (some cs)) =
      Except.error "tilewidth attribute of tileset in XML data passed to Tiled.Tileset is not a number" := by
  simp only [Tileset]
  rw [if_neg (by simp), himg]
  cases hs : getAttr iattrs "source" with
  | none => rw [hs] at hsrc; simp [isStrAttr] at hsrc
  | some v =>
    cases v with
    | num n => rw [hs] at hsrc; simp [isStrAttr] at hsrc
    | str u =>
      cases hw : getAttr attrs "tilewidth" with
      | none => simp [hs, hw]
      | some w =>
        cases w with
        | str ws => simp [hs, hw]
        | num wn => rw [hw] at htw; simp [isNumAttr] at htw

theorem tileset_error_tileheight (attrs : List (String × AttrValue))
    (cs : List XMLElement) (itag : String) (iattrs : List (String × AttrValue))
    (ics : Option (List XMLElement))
    (himg : getElementByTagName (XMLElement.elem "tileset" attrs (some cs)) "image" =
      some (XMLElement.elem itag iattrs ics))
    (hsrc : isStrAttr (getAttr iattrs "source") = true)
    (htw : isNumAttr (getAttr attrs "tilewidth") = true)
    (hth : isNumAttr (getAttr attrs "tileheight") = false) :
    Tileset (XMLElement.elem "tileset" attrs (some cs)) =
      Except.error "tileheight attribute of tileset in XML data passed to Tiled.Tileset is not a number" := by
  simp only [Tileset]
  rw [if_neg (by simp), himg]
  cases hs : getAttr iattrs "source" with
  | none => rw [hs] at hsrc; simp [isStrAttr] at hsrc
  | some v =>
    cases v with
    | num n => rw [hs] at hsrc; simp [isStrAttr] at hsrc
    | str u =>
      cases hw : getAttr attrs "tilewidth" with
      | none => rw [hw] at htw; simp [isNumAttr] at htw
      | some w =>
        cases w with
        | str ws => rw [hw] at htw; simp [isNumAttr] at htw
        | num wn =>
          cases hht : getAttr attrs "tileheight" with
          | none => simp [hs, hw, hht]
          | some hv =>
            cases hv with
            | str hvs => simp [hs, hw, hht]
            | num hvn => rw [hht] at hth; simp [isNumAttr] at hth

theorem layer_error_on_text (s : String) :
    Layer (XMLElement.text s) =
      Except.error "Invalid XML data passed to Tiled.Layer" := rfl

theorem layer_error_on_tag (tag : String) (attrs : List (String × AttrValue))
    (children : Option (List XMLElement)) (h : tag ≠ "layer") :
    Layer (XMLElement.elem tag attrs children) =
      Except.error "Invalid XML data passed to Tiled.Layer" := by
  have hb : (tag != "layer") = true := by simp [h]
  simp [Layer, hb]

theorem layer_error_width (attrs : List (String × AttrValue))
    (children : Option (List XMLElement))
    (hw : isNumAttr (getAttr attrs "width") = false) :
    Layer (XMLElement.elem "layer" attrs children) =
      Except.error "`width` attribute in XML data passed to Tiled.Layer was not a number" := by
  simp only [Layer]
  rw [if_neg (by simp)]
  cases hwv : getAttr attrs "width" with
  | none => simp [hwv]
  | some w =>
    cases w with
    | str ws => simp [hwv]
    | num wn => rw [hwv] at hw; simp [isNumAttr] at hw

theorem layer_error_height (attrs : List (String × AttrValue))
    (children : Option (List XMLElement))
    (hw : isNumAttr (getAttr attrs "width") = true)
    (hh : isNumAttr (getAttr attrs "height") = false) :
    Layer (XMLElement.elem "layer" attrs children) =
      Except.error "`height` attribute in XML data passed to Tiled.Layer was not a number" := by
  simp only [Layer]
  rw [if_neg (by simp)]
  cases hwv : getAttr attrs "width" with
  | none => rw [hwv] at hw; simp [isNumAttr] at hw
  | some w =>
    cases w with
    | str ws => rw [hwv] at hw; simp [isNumAttr] at hw
    | num wn =>
      cases hhv : getAttr attrs "height" with
      | none => simp [hwv, hhv]
      | some hv =>
        cases hv with
        | str hs => simp [hwv, hhv]
        | num hn => rw [hhv] at hh; simp [isNumAttr] at hh

theorem layer_error_no_data (attrs : List (String × AttrValue))
    (children : Option (List XMLElement)) (wn hn : Int)
    (hw : getAttr attrs "width" = some (AttrValue.num wn))
    (hh : getAttr attrs "height" = some (AttrValue.num hn))
    (hd : getElementByTagName (XMLElement.elem "layer" attrs children) "data" = none) :
    Layer (XMLElement.elem "layer" attrs children) =
      Except.error "`data` element not found in XML data passed to Tiled.Layer" := by
  simp only [Layer]
  rw [if_neg (by simp), hw, hh, hd]

theorem layer_error_encoding (attrs : List (String × AttrValue))
    (children : Option (List XMLElement)) (wn hn : Int) (dtag : String)
    (dataAttrs : List (String × AttrValue)) (dataChildren : Option (List XMLElement))
    (hw : getAttr attrs "width" = some (AttrValue.num wn))
    (hh : getAttr attrs "height" = some (AttrValue.num hn))
    (hd : getElementByTagName (XMLElement.elem "layer" attrs children) "data" =
      some (XMLElement.elem dtag dataAttrs dataChildren))
    (henc : getAttr dataAttrs "encoding" ≠ some (AttrValue.str "csv")) :
    Layer (XMLElement.elem "layer" attrs children) =
      Except.error "XML layer data passed to Tiled.Layer does not use csv encoding. Only csv encoding is supported at this time." := by
  simp only [Layer]
  rw [if_neg (by simp), hw, hh, hd]
  simp [henc]

/-- C7: constructing `Tiled.Tileset` or `Tiled.Layer` succeeds exactly on
well-shaped data, and each kind of malformation (string input or wrong tag name,
missing `image` or `data` element, non-string image source, non-number
tilewidth/tileheight/width/height, non-csv encoding) raises a synchronous error
whose message describes that specific problem. -/
theorem c7_tiled_validation :
    (∀ data : XMLElement, (Tileset data).isOk = wellFormedTileset data) ∧
    (∀ layer : XMLElement, (Layer layer).isOk = wellFormedLayer layer) ∧
    (∀ s, Tileset (XMLElement.text s) =
      Except.error "Invalid XML data passed to Tiled.Tileset") ∧
    (∀ tag attrs children, tag ≠ "tileset" ∨ children = none →
      Tileset (XMLElement.elem tag attrs children) =
        Except.error "Invalid XML data passed to Tiled.Tileset") ∧
    (∀ attrs cs,
      getElementByTagName (XMLElement.elem "tileset" attrs (some cs)) "image" = none →
      Tileset (XMLElement.elem "tileset" attrs (some cs)) =
        Except.error "XML data passed to Tiled.Tileset does not contain an image") ∧
    (∀ attrs cs itag iattrs ics,
      getElementByTagName (XMLElement.elem "tileset" attrs (some cs)) "image" =
          some (XMLElement.elem itag iattrs ics) →
      isStrAttr (getAttr iattrs "source") = false →
      Tileset (XMLElement.elem "tileset" attrs (some cs)) =
        Except.error "source attribute of image in XML data passed to Tiled.Tileset is not a string") ∧
    (∀ attrs cs itag iattrs ics,
      getElementByTagName (XMLElement.elem "tileset" attrs (some cs)) "image" =
          some (XMLElement.elem itag iattrs ics) →
      isStrAttr (getAttr iattrs "source") = true →
      isNumAttr (getAttr attrs "tilewidth") = false →
      Tileset (XMLElement.elem "tileset" attrs (some cs)) =
        Except.error "tilewidth attribute of tileset in XML data passed to Tiled.Tileset is not a number") ∧
    (∀ attrs cs itag iattrs ics,
      getElementByTagName (XMLElement.elem "tileset" attrs (some cs)) "image" =
          some (XMLElement.elem itag iattrs ics) →
      isStrAttr (getAttr iattrs "source") = true →
      isNumAttr (getAttr attrs "tilewidth") = true →
      isNumAttr (getAttr attrs "tileheight") = false →
      Tileset (XMLElement.elem "tileset" attrs (some cs)) =
        Except.error "tileheight attribute of tileset in XML data passed to Tiled.Tileset is not a number") ∧
    (∀ s, Layer (XMLElement.text s) =
      Except.error "Invalid XML data passed to Tiled.Layer") ∧
    (∀ tag attrs children, tag ≠ "layer" →
      Layer (XMLElement.elem tag attrs children) =
        Except.error "Invalid XML data passed to Tiled.Layer") ∧
    (∀ attrs children, isNumAttr (getAttr attrs "width") = false →
      Layer (XMLElement.elem "layer" attrs children) =
        Except.error "`width` attribute in XML data passed to Tiled.Layer was not a number") ∧
    (∀ attrs children, isNumAttr (getAttr attrs "width") = true →
      isNumAttr (getAttr attrs "height") = false →
      Layer (XMLElement.elem "layer" attrs children) =
        Except.error "`height` attribute in XML data passed to Tiled.Layer was not a number") ∧
    (∀ attrs children wn hn,
      getAttr attrs "width" = some (AttrValue.num wn) →
      getAttr attrs "height" = some (AttrValue.num hn) →
      getElementByTagName (XMLElement.elem "layer" attrs children) "data" = none →
      Layer (XMLElement.elem "layer" attrs children) =
        Except.error "`data` element not found in XML data passed to Tiled.Layer") ∧
    (∀ attrs children wn hn dtag dataAttrs dataChildren,
      getAttr attrs "width" = some (AttrValue.num wn) →
      getAttr attrs "height" = some (AttrValue.num hn) →
      getElementByTagName (XMLElement.elem "layer" attrs children) "data" =
          some (XMLElement.elem dtag dataAttrs dataChildren) →
      getAttr dataAttrs "encoding" ≠ some (AttrValue.str "csv") →
      Layer (XMLElement.elem "layer" attrs children) =
        Except.error "XML layer data passed to Tiled.Layer does not use csv encoding. Only csv encoding is supported at this time.") :=
  ⟨tileset_isOk_eq, layer_isOk_eq, tileset_error_on_text,
    fun tag attrs children h => tileset_error_on_shape tag attrs children h,
    fun attrs cs h => tileset_error_no_image attrs cs h,
    fun attrs cs itag iattrs ics h1 h2 =>
      tileset_error_source_not_string attrs cs itag iattrs ics h1 h2,
    fun attrs cs itag iattrs ics h1 h2 h3 =>
      tileset_error_tilewidth attrs cs itag iattrs ics h1 h2 h3,
    fun attrs cs itag iattrs ics h1 h2 h3 h4 =>
      tileset_error_tileheight attrs cs itag iattrs ics h1 h2 h3 h4,
    layer_error_on_text,
    fun tag attrs children h => layer_error_on_tag tag attrs children h,
    fun attrs children h => layer_error_width attrs children h,
    fun attrs children h1 h2 => layer_error_height attrs children h1 h2,
    fun attrs children wn hn h1 h2 h3 => layer_error_no_data attrs children wn hn h1 h2 h3,
    fun attrs children wn hn dtag dataAttrs dataChildren h1 h2 h3 h4 =>
      layer_error_encoding attrs children wn hn dtag dataAttrs dataChildren h1 h2 h3 h4⟩

/-- C7 witness: concrete malformed and well-shaped inputs hitting several of the
validation branches. -/
theorem c7_tiled_validation_witness :
    (Tileset (XMLElement.elem "tileset"
        [("tilewidth", AttrValue.num 16), ("tileheight", AttrValue.num 16)]
        (some [XMLElement.elem "image" [("source", AttrValue.str "a.png")] none]))).isOk =
      wellFormedTileset (XMLElement.elem "tileset"
        [("tilewidth", AttrValue.num 16), ("tileheight", AttrValue.num 16)]
        (some [XMLElement.elem "image" [("source", AttrValue.str "a.png")] none])) ∧
    Tileset (XMLElement.elem "map" [] none) =
      Except.error "Invalid XML data passed to Tiled.Tileset" ∧
    Tileset (XMLElement.elem "tileset" [] (some [])) =
      Except.error "XML data passed to Tiled.Tileset does not contain an image" ∧
    Tileset (XMLElement.elem "tileset" []
        (some [XMLElement.elem "image" [("source", AttrValue.num 3)] none])) =
      Except.error "source attribute of image in XML data passed to Tiled.Tileset is not a string" ∧
    Tileset (XMLElement.elem "tileset" [("tilewidth", AttrValue.str "16")]
        (some [XMLElement.elem "image" [("source", AttrValue.str "a.png")] none])) =
      Except.error "tilewidth attribute of tileset in XML data passed to Tiled.Tileset is not a number" ∧
    Tileset (XMLElement.elem "tileset" [("tilewidth", AttrValue.num 16)]
        (some [XMLElement.elem "image" [("source", AttrValue.str "a.png")] none])) =
      Except.error "tileheight attribute of tileset in XML data passed to Tiled.Tileset is not a number" ∧
    Layer (XMLElement.elem "tileset" [] none) =
      Except.error "Invalid XML data passed to Tiled.Layer" ∧
    Layer (XMLElement.elem "layer" [] none) =
      Except.error "`width` attribute in XML data passed to Tiled.Layer was not a number" ∧
    Layer (XMLElement.elem "layer" [("width", AttrValue.num 2)] none) =
      Except.error "`height` attribute in XML data passed to Tiled.Layer was not a number" ∧
    Layer (XMLElement.elem "layer"
        [("width", AttrValue.num 2), ("height", AttrValue.num 1)] none) =
      Except.error "`data` element not found in XML data passed to Tiled.Layer" ∧
    Layer (XMLElement.elem "layer"
        [("width", AttrValue.num 2), ("height", AttrValue.num 1)]
        (some [XMLElement.elem "data" [("encoding", AttrValue.str "base64")] none])) =
      Except.error "XML layer data passed to Tiled.Layer does not use csv encoding. Only csv encoding is supported at this time." :=
  ⟨c7_tiled_validation.1 _,
    c7_tiled_validation.2.2.2.1 "map" [] none (Or.inl (by decide)),
    c7_tiled_validation.2.2.2.2.1 [] [] rfl,
    c7_tiled_validation.2.2.2.2.2.1 [] [XMLElement.elem "image" [("source", AttrValue.num 3)] none]
      "image" [("source", AttrValue.num 3)] none rfl rfl,
    c7_tiled_validation.2.2.2.2.2.2.1 [("tilewidth", AttrValue.str "16")]
      [XMLElement.elem "image" [("source", AttrValue.str "a.png")] none]
      "image" [("source", AttrValue.str "a.png")] none rfl rfl rfl,
    c7_tiled_validation.2.2.2.2.2.2.2.1 [("tilewidth", AttrValue.num 16)]
      [XMLElement.elem "image" [("source", AttrValue.str "a.png")] none]
      "image" [("source", AttrValue.str "a.png")] none rfl rfl rfl rfl,
    c7_tiled_validation.2.2.2.2.2.2.2.2.2.1 "tileset" [] none (by decide),
    c7_tiled_validation.2.2.2.2.2.2.2.2.2.2.1 [] none rfl,
    c7_tiled_validation.2.2.2.2.2.2.2.2.2.2.2.1 [("width", AttrValue.num 2)] none rfl rfl,
    c7_tiled_validation.2.2.2.2.2.2.2.2.2.2.2.2.1
      [("width", AttrValue.num 2), ("height", AttrValue.num 1)] none 2 1 rfl rfl rfl,
    c7_tiled_validation.2.2.2.2.2.2.2.2.2.2.2.2.2
      [("width", AttrValue.num 2), ("height", AttrValue.num 1)]
      (some [XMLElement.elem "data" [("encoding", AttrValue.str "base64")] none]) 2 1
      "data" [("encoding", AttrValue.str "base64")] none rfl rfl rfl (by decide)⟩

theorem map_parse_decrement {cells : List String} {vs : List Int}
    (h : List.Forall₂ (fun c v => jsNumber (jsTrim c) = some v) cells vs) :
    (cells.map (fun cell => jsNumber (jsTrim cell))).map
        (Option.map (fun tileIndex => tileIndex - 1)) =
      vs.map (fun v => some (v - 1)) := by
  induction h with
  | nil => rfl
  | cons hcv htail ih => simp [hcv, ih]

/-- C10: for every well-formed csv-encoded layer (numeric width and height, a
`data` child with csv encoding, whose joined child text splits on commas into
cells each parsing to an integer), `Tiled.Layer` returns a grid whose stored data
is each cell's numeric value decremented by one. -/
theorem c10_layer_grid_decrements (attrs : List (String × AttrValue))
    (children : Option (List XMLElement)) (dtag : String)
    (dataAttrs : List (String × AttrValue)) (dcs : List XMLElement)
    (w h : Int) (cells : List String) (vs : List Int)
    (hw : getAttr attrs "width" = some (AttrValue.num w))
    (hh : getAttr attrs "height" = some (AttrValue.num h))
    (hfind : getElementByTagName (XMLElement.elem "layer" attrs children) "data" =
      some (XMLElement.elem dtag dataAttrs (some dcs)))
    (henc : getAttr dataAttrs "encoding" = some (AttrValue.str "csv"))
    (hsplit : jsSplitOnComma (csvOfChildren dcs) = cells)
    (hparse : List.Forall₂ (fun c v => jsNumber (jsTrim c) = some v) cells vs) :
    Layer (XMLElement.elem "layer" attrs children) =
      Except.ok
        { grid := { sizeX := w, sizeY := h, cells := vs.map (fun v => some (v - 1)) },
          visible := visibleOf attrs } := by
  simp only [Layer]
  rw [if_neg (by simp), hw, hh, hfind]
  simp only [henc]
  rw [if_pos trivial]
  simp only [hsplit]
  rw [map_parse_decrement hparse]
  rfl

/-- C10 witness: the layer whose csv data is "0, 5" yields the grid data
[-1, 4] — in particular the empty cell written as 0 becomes -1. -/
theorem c10_layer_grid_decrements_witness :
    Layer (XMLElement.elem "layer"
        [("width", AttrValue.num 2), ("height", AttrValue.num 1)]
        (some [XMLElement.elem "data" [("encoding", AttrValue.str "csv")]
          (some [XMLElement.text "0, 5"])])) =
      Except.ok
        { grid := { sizeX := 2, sizeY := 1, cells := [some (-1), some 4] },
          visible := true } :=
  c10_layer_grid_decrements
    [("width", AttrValue.num 2), ("height", AttrValue.num 1)]
    (some [XMLElement.elem "data" [("encoding", AttrValue.str "csv")]
      (some [XMLElement.text "0, 5"])])
    "data" [("encoding", AttrValue.str "csv")] [XMLElement.text "0, 5"]
    2 1 ["0", " 5"] [0, 5] rfl rfl rfl rfl rfl
    (List.Forall₂.cons rfl (List.Forall₂.cons rfl List.Forall₂.nil))

end HexEngine
